import Mathlib

/-!
Shallow embedding of the `azure-storage-python` file-service (de)serialization
modules:

* `azure/storage/_deserialization.py` — header property extraction
  (`_parse_properties`), signed identifiers, service properties;
* `azure/storage/file/_deserialization.py` — the four listing parsers;
* `azure/storage/file/_serialization.py` — `_update_storage_file_header`.

Python values are modelled explicitly: `None` becomes `Option`, exceptions
(`AttributeError`, `TypeError`, `ValueError`) become `Except PyErr`, XML
element trees become the inductive `XElem` with ElementTree's `find`,
`findall` and `findtext` semantics, and `dict` becomes an insertion-ordered
association list.  Timestamps are kept as their source text: the external
`dateutil.parser.parse` collaborator is modelled as succeeding on any present
string and raising `TypeError` on `None`, which is the only behaviour of it
the code paths under study depend on.
-/

namespace AzureStorage

/-- Python exceptions raised by the embedded code paths. -/
inductive PyErr where
  | attributeError
  | typeError
  | valueError
  deriving DecidableEq, Repr

/-- An XML element as produced by `xml.etree.ElementTree`: a tag, the text
directly inside the element (`None` when the element is empty), and the list
of child elements in document order. -/
inductive XElem where
  | mk (tag : String) (text : Option String) (children : List XElem)

/-- The element's tag. -/
def XElem.tag : XElem → String
  | .mk t _ _ => t

/-- `Element.text`: the text content, `None` for an empty element. -/
def XElem.text : XElem → Option String
  | .mk _ x _ => x

/-- The direct children, in document order. -/
def XElem.children : XElem → List XElem
  | .mk _ _ c => c

/-- `Element.find(tag)`: the first direct child with the given tag, if any. -/
def XElem.find (e : XElem) (t : String) : Option XElem :=
  e.children.find? (fun c => c.tag == t)

/-- `Element.findall(tag)`: all direct children with the given tag, in
document order. -/
def XElem.findall (e : XElem) (t : String) : List XElem :=
  e.children.filter (fun c => c.tag == t)

/-- `Element.findtext(tag)`: `None` when no child matches, otherwise the
child's text, with `None` text replaced by the empty string. -/
def XElem.findtext (e : XElem) (t : String) : Option String :=
  match e.find t with
  | none => none
  | some c => some (c.text.getD "")

/-- Python `s.startswith(p)`, via the underlying character lists. -/
def pyStartsWith (s p : String) : Bool :=
  p.toList.isPrefixOf s.toList

/-- Python `s.split(',')` on the character list: split at every comma,
keeping empty pieces (so the empty string splits to `[""]`). -/
def pySplitCommaAux (acc : List Char) : List Char → List String
  | [] => [String.mk acc.reverse]
  | c :: rest =>
    if c = ',' then String.mk acc.reverse :: pySplitCommaAux [] rest
    else pySplitCommaAux (c :: acc) rest

/-- Python `s.split(',')`. -/
def pySplitComma (s : String) : List String :=
  pySplitCommaAux [] s.toList

/-- Python `s.lower()` on an ASCII character. -/
def pyLowerChar (c : Char) : Char :=
  if 65 ≤ c.toNat ∧ c.toNat ≤ 90 then Char.ofNat (c.toNat + 32) else c

/-- Python `s.lower()` (ASCII model; the comparison target here is only ever the
literal `'true'`). -/
def pyLower (s : String) : String :=
  String.mk (s.toList.map pyLowerChar)

/-- Python whitespace stripped by `int()`. -/
def pyIsSpace (c : Char) : Bool :=
  c = ' ' ∨ c = '\t' ∨ c = '\n' ∨ c = '\r'

/-- The value of a nonempty all-digit character list. -/
def digitsToNat (l : List Char) : Option Nat :=
  match l with
  | [] => none
  | _ =>
    if l.all Char.isDigit then
      some (l.foldl (fun a c => a * 10 + (c.toNat - 48)) 0)
    else none

/-- The integer denoted by a stripped `int()` argument: an optional sign
followed by at least one digit. -/
def pyIntLit : List Char → Option Int
  | '-' :: rest => (digitsToNat rest).map (fun n => -(n : Int))
  | '+' :: rest => (digitsToNat rest).map (fun n => (n : Int))
  | l => (digitsToNat l).map (fun n => (n : Int))

/-- Python `int(value)`: `TypeError` on `None`, `ValueError` on a string that
is not an integer literal (after stripping surrounding whitespace),
otherwise the parsed integer. -/
def pyInt : Option String → Except PyErr Int
  | none => .error .typeError
  | some s =>
    match pyIntLit (((s.toList.dropWhile pyIsSpace).reverse.dropWhile pyIsSpace).reverse) with
    | none => .error .valueError
    | some n => .ok n

/-- The external `dateutil.parser.parse` collaborator on an optional text:
`TypeError` on `None`; a present string is treated as a parsable timestamp
and kept verbatim (timestamps are represented by their source text). -/
def dateutil_parse : Option String → Except PyErr String
  | none => .error .typeError
  | some s => .ok s

/-- Python `x or None` on an optional string: the empty string is falsy, so
both `None` and `""` collapse to `None`. -/
def pyOrNone : Option String → Option String
  | none => none
  | some t => if t = "" then none else some t

/-- Python `dict.get`: first binding for the key, if any. -/
def dictGet {α : Type} (d : List (String × α)) (key : String) : Option α :=
  match d with
  | [] => none
  | (k, v) :: rest => if k = key then some v else dictGet rest key

/-- Python `d[key] = v` on an insertion-ordered dict: replace in place when
the key is present, append otherwise. -/
def dictSet {α : Type} (d : List (String × α)) (key : String) (v : α) :
    List (String × α) :=
  match d with
  | [] => [(key, v)]
  | (k, w) :: rest =>
    if k = key then (key, v) :: rest else (k, w) :: dictSet rest key v

/-! ## `azure/storage/_deserialization.py`: header property extraction -/

/-- `_str_or_none` from `_common_conversion`: identity on `None`, `str` on
anything else; on the string header values it receives it is the identity. -/
def _str_or_none (value : Option String) : Option String :=
  value

/-- `_int_or_none(value)`: `None` passes through, otherwise `int(value)`. -/
def _int_or_none (value : Option String) : Except PyErr (Option Int) :=
  match value with
  | none => .ok none
  | some s => (pyInt (some s)).map some

/-- The converter stored in the third slot of a
`GET_PROPERTIES_ATTRIBUTE_MAP` entry. -/
inductive Conv where
  | dateConv
  | strConv
  | intConv
  deriving DecidableEq, Repr

/-- A Python value as stored into a property attribute by a converter. -/
inductive PyVal where
  | str (s : Option String)
  | int (n : Option Int)
  | date (s : String)
  deriving DecidableEq, Repr

/-- Apply a converter to a header value (always a present string). -/
def applyConv : Conv → String → Except PyErr PyVal
  | .dateConv, s => (dateutil_parse (some s)).map PyVal.date
  | .strConv, s => .ok (.str (_str_or_none (some s)))
  | .intConv, s => (_int_or_none (some s)).map PyVal.int

/-- An entry of `GET_PROPERTIES_ATTRIBUTE_MAP`: optional sub-object name,
attribute name, converter. -/
abbrev AttrInfo : Type := Option String × String × Conv

/-- `GET_PROPERTIES_ATTRIBUTE_MAP`, verbatim from the source. -/
def GET_PROPERTIES_ATTRIBUTE_MAP : List (String × AttrInfo) :=
  [ ("last-modified", (none, "last_modified", .dateConv)),
    ("etag", (none, "etag", .strConv)),
    ("x-ms-blob-type", (none, "blob_type", .strConv)),
    ("content-length", (none, "content_length", .intConv)),
    ("x-ms-blob-sequence-number", (none, "page_blob_sequence_number", .intConv)),
    ("x-ms-blob-committed-block-count", (none, "append_blob_committed_block_count", .intConv)),
    ("content-type", (some "content_settings", "content_type", .strConv)),
    ("cache-control", (some "content_settings", "cache_control", .strConv)),
    ("content-encoding", (some "content_settings", "content_encoding", .strConv)),
    ("content-disposition", (some "content_settings", "content_disposition", .strConv)),
    ("content-language", (some "content_settings", "content_language", .strConv)),
    ("content-md5", (some "content_settings", "content_md5", .strConv)),
    ("x-ms-lease-status", (some "lease", "status", .strConv)),
    ("x-ms-lease-state", (some "lease", "state", .strConv)),
    ("x-ms-lease-duration", (some "lease", "duration", .strConv)),
    ("x-ms-copy-id", (some "copy", "id", .strConv)),
    ("x-ms-copy-source", (some "copy", "source", .strConv)),
    ("x-ms-copy-status", (some "copy", "status", .strConv)),
    ("x-ms-copy-progress", (some "copy", "progress", .strConv)),
    ("x-ms-copy-completion-time", (some "copy", "completion_time", .strConv)),
    ("x-ms-copy-status-description", (some "copy", "status_description", .strConv)) ]

/-- The attribute assignments performed on the `properties_class` instance,
in execution order: `((sub-object?, attribute), value)`. -/
abbrev Props : Type := List ((Option String × String) × PyVal)

/-- The accumulated metadata dict: header name to `_str_or_none`-converted
value. -/
abbrev Metadata : Type := List (String × Option String)

/-- An HTTP response as consumed by `_parse_properties`: its headers, a list
of `(name, value)` pairs. -/
structure Response where
  headers : List (String × String)

/-- One iteration of the `for key, value in response.headers` loop of
`_parse_properties`: a table hit assigns the converted value to the mapped
attribute, a name with the `x-ms-meta-` metadata marker stores a metadata
entry under the unmodified header name, anything else is ignored. -/
def parsePropertiesStep (acc : Props × Metadata) (kv : String × String) :
    Except PyErr (Props × Metadata) :=
  let (props, metadata) := acc
  let (key, value) := kv
  match dictGet GET_PROPERTIES_ATTRIBUTE_MAP key with
  | some info =>
    (applyConv info.2.2 value).map
      (fun v => (props ++ [((info.1, info.2.1), v)], metadata))
  | none =>
    if pyStartsWith key "x-ms-meta-" then
      .ok (props, dictSet metadata key (_str_or_none (some value)))
    else
      .ok (props, metadata)

/-- The whole header loop of `_parse_properties`. -/
def parsePropertiesLoop (headers : List (String × String))
    (acc : Props × Metadata) : Except PyErr (Props × Metadata) :=
  match headers with
  | [] => .ok acc
  | kv :: rest => do
    let acc2 ← parsePropertiesStep acc kv
    parsePropertiesLoop rest acc2

/-- The guard `response is None and response.headers is not None`: when the
response is present the first conjunct is `False` and `and` short-circuits
to `False`; when the response is `None` evaluating `response.headers` raises
`AttributeError` before the conjunction completes. -/
def parsePropertiesGuard : Option Response → Except PyErr Bool
  | none => .error .attributeError
  | some _ => .ok false

/-- `_parse_properties(response, properties_class)`.  The guard branch would
return the pair `(None, None)`; the normal path returns the present
properties assignments and metadata dict. -/
def _parse_properties (response : Option Response) :
    Except PyErr (Option Props × Option Metadata) := do
  let g ← parsePropertiesGuard response
  if g then
    .ok (none, none)
  else
    match response with
    | none => .error .attributeError
    | some r => do
      let (props, metadata) ← parsePropertiesLoop r.headers ([], [])
      .ok (some props, some metadata)

/-! ## `azure/storage/file/_deserialization.py`: listing parsers -/

/-- The response object fed to the listing parsers: its `body` attribute,
already parsed into an element tree (`None` models an absent body). -/
structure FileResponse where
  body : Option XElem

/-- A listing parser either passes the original response object through
(guard branch) or produces a parsed value. -/
inductive ParseOut (α : Type) where
  | passthrough (response : Option FileResponse)
  | parsed (v : α)


/-- `Share.properties` fields touched by the parser. -/
structure ShareProperties where
  last_modified : Option String := none
  etag : Option String := none
  quota : Option Int := none
  deriving DecidableEq, Repr

/-- A `Share` model object. -/
structure Share where
  name : Option String := none
  metadata : Option (List (String × Option String)) := none
  properties : ShareProperties := {}
  deriving DecidableEq, Repr

/-- The `_list` result of `_convert_xml_to_shares`: the appended shares plus
the `next_marker` attribute set on it. -/
structure SharesList where
  next_marker : Option String
  items : List Share
  deriving DecidableEq, Repr

/-- The body of the `for share_element in shares_element.findall('Share')`
loop: `Name` via tolerant `findtext`, optional `Metadata` dict, then the
`Properties` block with `Last-Modified` (timestamp), `Etag`, `Quota`
(integer). -/
def parseShareElement (share_element : XElem) : Except PyErr Share := do
  let name := share_element.findtext "Name"
  let metadata : Option (List (String × Option String)) :=
    match share_element.find "Metadata" with
    | none => none
    | some m => some (m.children.map (fun c => (c.tag, c.text)))
  let properties_element ← match share_element.find "Properties" with
    | none => Except.error PyErr.attributeError
    | some p => Except.ok p
  let last_modified ← dateutil_parse (properties_element.findtext "Last-Modified")
  let etag := properties_element.findtext "Etag"
  let quota ← pyInt (properties_element.findtext "Quota")
  Except.ok { name := name, metadata := metadata,
              properties := { last_modified := some last_modified,
                              etag := etag, quota := some quota } }

/-- The `Share` loop over the elements returned by `findall('Share')`. -/
def parseSharesLoop : List XElem → Except PyErr (List Share)
  | [] => Except.ok []
  | share_element :: rest => do
    let share ← parseShareElement share_element
    let tail ← parseSharesLoop rest
    Except.ok (share :: tail)

/-- `_convert_xml_to_shares(response)`. -/
def _convert_xml_to_shares (response : Option FileResponse) :
    Except PyErr (ParseOut SharesList) := do
  match response with
  | none => Except.ok (.passthrough response)
  | some r =>
    match r.body with
    | none => Except.ok (.passthrough response)
    | some list_element => do
      let next_marker := pyOrNone (list_element.findtext "NextMarker")
      let shares_element ← match list_element.find "Shares" with
        | none => Except.error PyErr.attributeError
        | some s => Except.ok s
      let items ← parseSharesLoop (shares_element.findall "Share")
      Except.ok (.parsed { next_marker := next_marker, items := items })

/-- `File.properties` fields touched by the parser. -/
structure FileProperties where
  content_length : Option Int := none
  deriving DecidableEq, Repr

/-- A `File` model object as built by the listing parser. -/
structure File where
  name : Option String := none
  properties : FileProperties := {}
  deriving DecidableEq, Repr

/-- A `Directory` model object. -/
structure Directory where
  name : Option String := none
  deriving DecidableEq, Repr

/-- The `FileAndDirectoryResults` collection: files and directories in
separate ordered sequences, plus the `next_marker` attribute. -/
structure FileAndDirectoryResults where
  next_marker : Option String := none
  files : List File := []
  directories : List Directory := []
  deriving DecidableEq, Repr

/-- The body of the `File` loop: `Name` via tolerant `findtext`, then the
`Properties` block with integer `Content-Length`. -/
def parseFileElement (file_element : XElem) : Except PyErr File := do
  let name := file_element.findtext "Name"
  let properties_element ← match file_element.find "Properties" with
    | none => Except.error PyErr.attributeError
    | some p => Except.ok p
  let content_length ← pyInt (properties_element.findtext "Content-Length")
  Except.ok { name := name, properties := { content_length := some content_length } }

/-- The body of the `Directory` loop: only `Name`. -/
def parseDirectoryElement (directory_element : XElem) : Except PyErr Directory :=
  Except.ok { name := directory_element.findtext "Name" }

/-- The `File` loop over the elements returned by `findall('File')`. -/
def parseFilesLoop : List XElem → Except PyErr (List File)
  | [] => Except.ok []
  | file_element :: rest => do
    let file ← parseFileElement file_element
    let tail ← parseFilesLoop rest
    Except.ok (file :: tail)

/-- The `Directory` loop over the elements returned by
`findall('Directory')`. -/
def parseDirectoriesLoop : List XElem → Except PyErr (List Directory)
  | [] => Except.ok []
  | directory_element :: rest => do
    let directory ← parseDirectoryElement directory_element
    let tail ← parseDirectoriesLoop rest
    Except.ok (directory :: tail)

/-- `_convert_xml_to_directories_and_files(response)`. -/
def _convert_xml_to_directories_and_files (response : Option FileResponse) :
    Except PyErr (ParseOut FileAndDirectoryResults) := do
  match response with
  | none => Except.ok (.passthrough response)
  | some r =>
    match r.body with
    | none => Except.ok (.passthrough response)
    | some list_element => do
      let next_marker := pyOrNone (list_element.findtext "NextMarker")
      let entries_element ← match list_element.find "Entries" with
        | none => Except.error PyErr.attributeError
        | some s => Except.ok s
      let files ← parseFilesLoop (entries_element.findall "File")
      let directories ← parseDirectoriesLoop (entries_element.findall "Directory")
      Except.ok (.parsed { next_marker := next_marker, files := files,
                           directories := directories })

/-- A `Range` model object. -/
structure Range where
  start : Option Int := none
  finish : Option Int := none
  deriving DecidableEq, Repr

/-- The body of the `Range` loop: integer `Start` and `End`. -/
def parseRangeElement (range_element : XElem) : Except PyErr Range := do
  let start ← pyInt (range_element.findtext "Start")
  let finish ← pyInt (range_element.findtext "End")
  Except.ok { start := some start, finish := some finish }

/-- The `Range` loop over the elements returned by `findall('Range')`. -/
def parseRangesLoop : List XElem → Except PyErr (List Range)
  | [] => Except.ok []
  | range_element :: rest => do
    let range ← parseRangeElement range_element
    let tail ← parseRangesLoop rest
    Except.ok (range :: tail)

/-- `_convert_xml_to_ranges(response)`. -/
def _convert_xml_to_ranges (response : Option FileResponse) :
    Except PyErr (ParseOut (List Range)) := do
  match response with
  | none => Except.ok (.passthrough response)
  | some r =>
    match r.body with
    | none => Except.ok (.passthrough response)
    | some ranges_element => do
      let ranges ← parseRangesLoop (ranges_element.findall "Range")
      Except.ok (.parsed ranges)

/-- A `ShareStats` model object. -/
structure ShareStats where
  share_usage : Option Int := none
  deriving DecidableEq, Repr

/-- `_convert_xml_to_share_stats(response)`. -/
def _convert_xml_to_share_stats (response : Option FileResponse) :
    Except PyErr (ParseOut ShareStats) := do
  match response with
  | none => Except.ok (.passthrough response)
  | some r =>
    match r.body with
    | none => Except.ok (.passthrough response)
    | some share_stats_element => do
      let usage ← pyInt (share_stats_element.findtext "ShareUsage")
      Except.ok (.parsed { share_usage := some usage })

/-! ## `azure/storage/_deserialization.py`: signed identifiers -/

/-- An `AccessPolicy` model object. -/
structure AccessPolicy where
  start : Option String := none
  expiry : Option String := none
  permission : Option String := none
  deriving DecidableEq, Repr

/-- The body of the `SignedIdentifier` loop: required `Id` (attribute access
on a missing element fails), required `AccessPolicy` element (`find` on it
fails when absent), optional `Start`/`Expiry` parsed as timestamps only when
present, and `Permission` read via the tolerant `findtext`. -/
def parseSignedIdentifier (signed_identifier_element : XElem) :
    Except PyErr (Option String × AccessPolicy) := do
  let id ← match signed_identifier_element.find "Id" with
    | none => Except.error PyErr.attributeError
    | some i => Except.ok i.text
  let access_policy_element ← match signed_identifier_element.find "AccessPolicy" with
    | none => Except.error PyErr.attributeError
    | some a => Except.ok a
  let start ← match access_policy_element.find "Start" with
    | none => Except.ok none
    | some start_element => do
      let d ← dateutil_parse start_element.text
      Except.ok (some d)
  let expiry ← match access_policy_element.find "Expiry" with
    | none => Except.ok none
    | some expiry_element => do
      let d ← dateutil_parse expiry_element.text
      Except.ok (some d)
  let permission := access_policy_element.findtext "Permission"
  Except.ok (id, { start := start, expiry := expiry, permission := permission })

/-- `_convert_xml_to_signed_identifiers(xml)`: a dict keyed by the `Id`
texts. -/
def _convert_xml_to_signed_identifiers (list_element : XElem) :
    Except PyErr (List (Option String × AccessPolicy)) := do
  let go : List (Option String × AccessPolicy) → XElem →
      Except PyErr (List (Option String × AccessPolicy)) := fun acc e => do
    let (id, access_policy) ← parseSignedIdentifier e
    Except.ok (acc ++ [(id, access_policy)])
  (list_element.findall "SignedIdentifier").foldlM go []

/-! ## `azure/storage/_deserialization.py`: service properties -/

/-- `_bool(value)`: `value.lower() == 'true'`; attribute access on `None`
fails. -/
def _bool : Option String → Except PyErr Bool
  | none => .error .attributeError
  | some s => .ok (pyLower s = "true")

/-- `found.text` on the result of a `find`: attribute access fails when the
element was absent. -/
def textOf : Option XElem → Except PyErr (Option String)
  | none => .error .attributeError
  | some e => .ok e.text

/-- A `RetentionPolicy` model object. -/
structure RetentionPolicy where
  enabled : Option Bool := none
  days : Option Int := none
  deriving DecidableEq, Repr

/-- A `Logging` model object. -/
structure Logging where
  version : Option String := none
  delete : Option Bool := none
  read : Option Bool := none
  write : Option Bool := none
  retention_policy : RetentionPolicy := {}
  deriving DecidableEq, Repr

/-- A `Metrics` model object. -/
structure Metrics where
  version : Option String := none
  enabled : Option Bool := none
  include_apis : Option Bool := none
  retention_policy : RetentionPolicy := {}
  deriving DecidableEq, Repr

/-- A `CorsRule` model object, as built by the constructor call and the two
conditional assignments. -/
structure CorsRule where
  allowed_origins : List String
  allowed_methods : List String
  max_age_in_seconds : Int
  exposed_headers : Option (List String) := none
  allowed_headers : Option (List String) := none
  deriving DecidableEq, Repr

/-- A `ServiceProperties` model object. -/
structure ServiceProperties where
  logging : Option Logging := none
  hour_metrics : Option Metrics := none
  minute_metrics : Option Metrics := none
  cors : Option (List CorsRule) := none
  target_version : Option String := none
  deriving DecidableEq, Repr

/-- `_convert_xml_to_retention_policy(xml, retention_policy)`: mutates the
given policy; `xml` is the result of a `find`, so an absent element fails at
`xml.find('Enabled')`. -/
def _convert_xml_to_retention_policy (xml : Option XElem)
    (retention_policy : RetentionPolicy) : Except PyErr RetentionPolicy := do
  match xml with
  | none => Except.error PyErr.attributeError
  | some x => do
    let enabled ← _bool (← textOf (x.find "Enabled"))
    let retention_policy := { retention_policy with enabled := some enabled }
    match x.find "Days" with
    | none => Except.ok retention_policy
    | some days_element => do
      let days ← pyInt days_element.text
      Except.ok { retention_policy with days := some days }

/-- `_convert_xml_to_metrics(xml, metrics)`: mutates the given metrics. -/
def _convert_xml_to_metrics (xml : XElem) (metrics : Metrics) :
    Except PyErr Metrics := do
  let version ← textOf (xml.find "Version")
  let metrics := { metrics with version := version }
  let enabled ← _bool (← textOf (xml.find "Enabled"))
  let metrics := { metrics with enabled := some enabled }
  let metrics ← match xml.find "IncludeAPIs" with
    | none => Except.ok metrics
    | some include_apis_element => do
      let b ← _bool include_apis_element.text
      Except.ok { metrics with include_apis := some b }
  let rp ← _convert_xml_to_retention_policy (xml.find "RetentionPolicy")
    metrics.retention_policy
  Except.ok { metrics with retention_policy := rp }

/-- The body of the `for rule in cors.findall('CorsRule')` loop:
`AllowedOrigins` and `AllowedMethods` comma-split (attribute access fails if
the element is absent or its text is `None`), integer `MaxAgeInSeconds`,
then `ExposedHeaders` and `AllowedHeaders` read by unconditional attribute
access (absent element fails) with the split applied only when the text is
present. -/
def parseCorsRule (rule : XElem) : Except PyErr CorsRule := do
  let allowed_origins ← match ← textOf (rule.find "AllowedOrigins") with
    | none => Except.error PyErr.attributeError
    | some s => Except.ok (pySplitComma s)
  let allowed_methods ← match ← textOf (rule.find "AllowedMethods") with
    | none => Except.error PyErr.attributeError
    | some s => Except.ok (pySplitComma s)
  let max_age_in_seconds ← pyInt (← textOf (rule.find "MaxAgeInSeconds"))
  let cors_rule : CorsRule :=
    { allowed_origins := allowed_origins, allowed_methods := allowed_methods,
      max_age_in_seconds := max_age_in_seconds }
  let exposed_headers ← textOf (rule.find "ExposedHeaders")
  let cors_rule := match exposed_headers with
    | none => cors_rule
    | some s => { cors_rule with exposed_headers := some (pySplitComma s) }
  let allowed_headers ← textOf (rule.find "AllowedHeaders")
  let cors_rule := match allowed_headers with
    | none => cors_rule
    | some s => { cors_rule with allowed_headers := some (pySplitComma s) }
  Except.ok cors_rule

/-- The `CorsRule` loop over the elements returned by
`findall('CorsRule')`. -/
def parseCorsRulesLoop : List XElem → Except PyErr (List CorsRule)
  | [] => Except.ok []
  | rule :: rest => do
    let cors_rule ← parseCorsRule rule
    let tail ← parseCorsRulesLoop rest
    Except.ok (cors_rule :: tail)

/-- `_convert_xml_to_service_properties(xml)`. -/
def _convert_xml_to_service_properties (service_properties_element : XElem) :
    Except PyErr ServiceProperties := do
  let service_properties : ServiceProperties := {}
  let service_properties ← match service_properties_element.find "Logging" with
    | none => Except.ok service_properties
    | some logging => do
      let version ← textOf (logging.find "Version")
      let delete ← _bool (← textOf (logging.find "Delete"))
      let read ← _bool (← textOf (logging.find "Read"))
      let write ← _bool (← textOf (logging.find "Write"))
      let l : Logging := { version := version, delete := some delete,
                           read := some read, write := some write }
      let rp ← _convert_xml_to_retention_policy (logging.find "RetentionPolicy")
        l.retention_policy
      Except.ok { service_properties with logging := some { l with retention_policy := rp } }
  let service_properties ← match service_properties_element.find "HourMetrics" with
    | none => Except.ok service_properties
    | some hour_metrics_element => do
      let m ← _convert_xml_to_metrics hour_metrics_element {}
      Except.ok { service_properties with hour_metrics := some m }
  let service_properties ← match service_properties_element.find "MinuteMetrics" with
    | none => Except.ok service_properties
    | some minute_metrics_element => do
      let m ← _convert_xml_to_metrics minute_metrics_element {}
      Except.ok { service_properties with minute_metrics := some m }
  let service_properties ← match service_properties_element.find "Cors" with
    | none => Except.ok service_properties
    | some cors => do
      let rules ← parseCorsRulesLoop (cors.findall "CorsRule")
      Except.ok { service_properties with cors := some rules }
  let service_properties := match service_properties_element.find "DefaultServiceVersion" with
    | none => service_properties
    | some target_version => { service_properties with target_version := target_version.text }
  Except.ok service_properties

/-! ## `azure/storage/file/_serialization.py`: outgoing headers -/

/-- An HTTP request as mutated by `_update_storage_file_header`: only its
header list is observed here. -/
structure HRequest where
  headers : List (String × String)
  deriving DecidableEq, Repr

/-- `_update_storage_file_header(request, authentication)`, parameterised by
its two external collaborators — `_update_storage_header` (`upd`) and
`authentication.sign_request` (`sign`, modelled as the request
transformation it performs in place) — and by `current_time`, the value
`format_date_time(time())` produced at the call.  Besides the returned
header collection, the embedding records the trace of arguments passed to
`sign`, so that the number and shape of signing calls is observable. -/
def _update_storage_file_header (upd : HRequest → HRequest)
    (sign : HRequest → HRequest) (current_time : String) (request : HRequest) :
    List (String × String) × List HRequest :=
  let request := upd request
  let request := { request with
    headers := request.headers ++ [("x-ms-date", current_time)] }
  let request := { request with
    headers := request.headers ++
      [("Content-Type", "application/octet-stream Charset=UTF-8")] }
  let signed := sign request
  (signed.headers, [request])

/-! ## Concrete documents used below -/

/-- A shares listing whose `NextMarker` is a present but empty element and
whose single `Share` is fully populated. -/
def sharesDocEmptyNM : XElem :=
  .mk "EnumerationResults" none
    [ .mk "NextMarker" none [],
      .mk "Shares" none
        [ .mk "Share" none
            [ .mk "Name" (some "share1") [],
              .mk "Properties" none
                [ .mk "Last-Modified" (some "Mon, 27 Jan 2014 22:49:18 GMT") [],
                  .mk "Etag" (some "0x8CB171613397EAB") [],
                  .mk "Quota" (some "5") [] ] ] ] ]

/-- The collection produced from `sharesDocEmptyNM`. -/
def sharesListEmptyNM : SharesList :=
  { next_marker := none,
    items := [ { name := some "share1", metadata := none,
                 properties := { last_modified := some "Mon, 27 Jan 2014 22:49:18 GMT",
                                 etag := some "0x8CB171613397EAB",
                                 quota := some 5 } } ] }

/-- The same shares listing with `<NextMarker>abc</NextMarker>`. -/
def sharesDocMarkerAbc : XElem :=
  .mk "EnumerationResults" none
    [ .mk "NextMarker" (some "abc") [],
      .mk "Shares" none
        [ .mk "Share" none
            [ .mk "Name" (some "share1") [],
              .mk "Properties" none
                [ .mk "Last-Modified" (some "Mon, 27 Jan 2014 22:49:18 GMT") [],
                  .mk "Etag" (some "0x8CB171613397EAB") [],
                  .mk "Quota" (some "5") [] ] ] ] ]

/-- The collection produced from `sharesDocMarkerAbc`. -/
def sharesListMarkerAbc : SharesList :=
  { sharesListEmptyNM with next_marker := some "abc" }

/-- A shares listing whose single `Share` has a complete `Properties` block
but no `Name` child. -/
def sharesDocNoName : XElem :=
  .mk "EnumerationResults" none
    [ .mk "Shares" none
        [ .mk "Share" none
            [ .mk "Properties" none
                [ .mk "Last-Modified" (some "Tue, 28 Jan 2014 22:49:18 GMT") [],
                  .mk "Etag" (some "0x8CB") [],
                  .mk "Quota" (some "7") [] ] ] ] ]

/-- A directories-and-files listing with entries in document order
`File f1, Directory d1, File f2` and an empty `NextMarker`. -/
def fdfDoc : XElem :=
  .mk "EnumerationResults" none
    [ .mk "Entries" none
        [ .mk "File" none
            [ .mk "Name" (some "f1") [],
              .mk "Properties" none [ .mk "Content-Length" (some "1") [] ] ],
          .mk "Directory" none [ .mk "Name" (some "d1") [] ],
          .mk "File" none
            [ .mk "Name" (some "f2") [],
              .mk "Properties" none [ .mk "Content-Length" (some "2") [] ] ] ],
      .mk "NextMarker" none [] ]

/-- The collection produced from `fdfDoc`. -/
def fdfResults : FileAndDirectoryResults :=
  { next_marker := none,
    files := [ { name := some "f1", properties := { content_length := some 1 } },
               { name := some "f2", properties := { content_length := some 2 } } ],
    directories := [ { name := some "d1" } ] }

/-- An access-policy document whose single `SignedIdentifier` carries an
`Id` and an `AccessPolicy` with no `Start`, `Expiry` or `Permission`. -/
def sigIdsDoc : XElem :=
  .mk "SignedIdentifiers" none
    [ .mk "SignedIdentifier" none
        [ .mk "Id" (some "id1") [],
          .mk "AccessPolicy" none [] ] ]

/-- A `SignedIdentifier` whose `AccessPolicy` has `Start` and `Expiry` but
no `Permission`. -/
def sigIdElemStartExpiry : XElem :=
  .mk "SignedIdentifier" none
    [ .mk "Id" (some "id2") [],
      .mk "AccessPolicy" none
        [ .mk "Start" (some "2014-01-01") [],
          .mk "Expiry" (some "2015-01-01") [] ] ]

/-- A CORS rule with the three constructor elements and neither
`ExposedHeaders` nor `AllowedHeaders`. -/
def corsRuleNoExposed : XElem :=
  .mk "CorsRule" none
    [ .mk "AllowedOrigins" (some "a,b") [],
      .mk "AllowedMethods" (some "GET,PUT") [],
      .mk "MaxAgeInSeconds" (some "500") [] ]

/-- A CORS rule with a populated `ExposedHeaders` but no `AllowedHeaders`. -/
def corsRuleNoAllowedHeaders : XElem :=
  .mk "CorsRule" none
    [ .mk "AllowedOrigins" (some "a,b") [],
      .mk "AllowedMethods" (some "GET,PUT") [],
      .mk "MaxAgeInSeconds" (some "500") [],
      .mk "ExposedHeaders" (some "x,y") [] ]

/-- A CORS rule whose `ExposedHeaders` and `AllowedHeaders` are present but
empty elements. -/
def corsRuleEmptyHeaderLists : XElem :=
  .mk "CorsRule" none
    [ .mk "AllowedOrigins" (some "a,b") [],
      .mk "AllowedMethods" (some "GET,PUT") [],
      .mk "MaxAgeInSeconds" (some "500") [],
      .mk "ExposedHeaders" none [],
      .mk "AllowedHeaders" none [] ]

/-- A service-properties document whose only section is `Cors`, holding
`corsRuleNoExposed`. -/
def spDocNoExposed : XElem :=
  .mk "StorageServiceProperties" none [ .mk "Cors" none [ corsRuleNoExposed ] ]

/-- A service-properties document whose only section is `Cors`, holding
`corsRuleEmptyHeaderLists`. -/
def spDocEmptyHeaderLists : XElem :=
  .mk "StorageServiceProperties" none [ .mk "Cors" none [ corsRuleEmptyHeaderLists ] ]

/-! ## Helper lemmas -/

/-- Bind on a successful `Except` computation runs the continuation. -/
@[simp] theorem except_bind_ok {ε α β : Type} (a : α) (f : α → Except ε β) :
    (Except.ok a >>= f) = f a := rfl

/-- Bind on a failed `Except` computation propagates the error. -/
@[simp] theorem except_bind_error {ε α β : Type} (e : ε) (f : α → Except ε β) :
    ((Except.error e : Except ε α) >>= f) = Except.error e := rfl

/-- `pyOrNone` never yields the empty string. -/
theorem pyOrNone_ne_some_empty (s : Option String) : pyOrNone s ≠ some "" := by
  cases s with
  | none => simp [pyOrNone]
  | some t => by_cases h : t = "" <;> simp [pyOrNone, h]

/-! ## Claim theorems -/

/-- C3: the guard `response is None and response.headers is not None` of
`_parse_properties` can never evaluate to `True`: on a present response the
first conjunct is false and the conjunction short-circuits to `False`, and on
an absent response evaluating `response.headers` raises `AttributeError`
first.  Hence the branch returning `(None, None)` is unreachable, and a call
with an absent response fails in the guard instead of returning a pair of
empty results. -/
theorem C3_guard_contradictory :
    (∀ response : Option Response,
       parsePropertiesGuard response = Except.ok false ∨
       parsePropertiesGuard response = Except.error PyErr.attributeError) ∧
    _parse_properties none = Except.error PyErr.attributeError := by
  refine ⟨fun response => ?_, rfl⟩
  cases response with
  | none => exact Or.inr rfl
  | some r => exact Or.inl rfl

/-- Witness for C3 at a concrete present response and the absent one. -/
theorem C3_guard_contradictory_witness :
    (parsePropertiesGuard (some { headers := [] }) = Except.ok false ∨
     parsePropertiesGuard (some { headers := [] }) = Except.error PyErr.attributeError) ∧
    _parse_properties none = Except.error PyErr.attributeError :=
  ⟨C3_guard_contradictory.1 (some { headers := [] }), C3_guard_contradictory.2⟩

/-- C2: each of the four listing parsers, on an absent response or a
response with an absent body, returns the original response object itself
unchanged. -/
theorem C2_absent_body_passthrough (response : Option FileResponse)
    (h : response = none ∨ ∃ r, response = some r ∧ r.body = none) :
    _convert_xml_to_shares response = Except.ok (.passthrough response) ∧
    _convert_xml_to_directories_and_files response = Except.ok (.passthrough response) ∧
    _convert_xml_to_ranges response = Except.ok (.passthrough response) ∧
    _convert_xml_to_share_stats response = Except.ok (.passthrough response) := by
  rcases h with h | ⟨r, hr, hb⟩
  · subst h
    exact ⟨rfl, rfl, rfl, rfl⟩
  · subst hr
    cases r with
    | mk body =>
      cases body with
      | none => exact ⟨rfl, rfl, rfl, rfl⟩
      | some le => simp [FileResponse.body] at hb

/-- Witness for C2 at the absent response. -/
theorem C2_absent_body_passthrough_witness :
    _convert_xml_to_shares none = Except.ok (.passthrough none) ∧
    _convert_xml_to_directories_and_files none = Except.ok (.passthrough none) ∧
    _convert_xml_to_ranges none = Except.ok (.passthrough none) ∧
    _convert_xml_to_share_stats none = Except.ok (.passthrough none) :=
  C2_absent_body_passthrough none (Or.inl rfl)

/-- C1 as stated is false: on a response with header `x-ms-meta-foo: bar`
the extractor stores the metadata entry under the full header name
`x-ms-meta-foo`, not under the stripped name `foo`, so the resulting
metadata dict has no binding for `foo`. -/
theorem C1_counterexample :
    _parse_properties (some { headers := [("x-ms-meta-foo", "bar")] }) =
      Except.ok (some [], some [("x-ms-meta-foo", some "bar")]) ∧
    dictGet [("x-ms-meta-foo", (some "bar" : Option String))] "foo" = none ∧
    _parse_properties (some { headers := [("x-ms-meta-foo", "bar")] }) ≠
      Except.ok (some [], some [("foo", some "bar")]) := by
  refine ⟨rfl, rfl, fun h => ?_⟩
  rw [show _parse_properties (some { headers := [("x-ms-meta-foo", "bar")] }) =
    Except.ok (some [], some [("x-ms-meta-foo", some "bar")]) from rfl] at h
  simp at h

/-- C1 amended: a header whose name misses the property table and starts
with `x-ms-meta-` is stored as a metadata entry under its full, unstripped
header name, with the value passed through the identity conversion; in
particular `x-ms-meta-foo: bar` yields the metadata mapping
`{"x-ms-meta-foo": "bar"}`. -/
theorem C1_metadata_unstripped (props : Props) (metadata : Metadata)
    (key value : String)
    (hget : dictGet GET_PROPERTIES_ATTRIBUTE_MAP key = none)
    (hmeta : pyStartsWith key "x-ms-meta-" = true) :
    parsePropertiesStep (props, metadata) (key, value) =
      Except.ok (props, dictSet metadata key (some value)) := by
  simp [parsePropertiesStep, hget, hmeta, _str_or_none]

/-- Witness for the amended C1 at the spec's own example header. -/
theorem C1_metadata_unstripped_witness :
    parsePropertiesStep ([], []) ("x-ms-meta-foo", "bar") =
      Except.ok (([] : Props), dictSet [] "x-ms-meta-foo" (some "bar")) :=
  C1_metadata_unstripped [] [] "x-ms-meta-foo" "bar" (by decide) (by decide)

/-- C10: both the property-table lookup and the metadata test are
case-sensitive: a header whose name misses the all-lower-case table and does
not start with the exact string `x-ms-meta-` is silently ignored — no
property assignment and no metadata entry; in particular mixed-case
`Last-Modified` and `ETag` headers are dropped entirely. -/
theorem C10_case_sensitive :
    (∀ (props : Props) (metadata : Metadata) (key value : String),
       dictGet GET_PROPERTIES_ATTRIBUTE_MAP key = none →
       pyStartsWith key "x-ms-meta-" = false →
       parsePropertiesStep (props, metadata) (key, value) =
         Except.ok (props, metadata)) ∧
    _parse_properties (some { headers := [("Last-Modified", "lm"), ("ETag", "e")] }) =
      Except.ok (some [], some []) := by
  refine ⟨fun props metadata key value hget hmeta => ?_, rfl⟩
  simp [parsePropertiesStep, hget, hmeta]

/-- Witness for C10 at the mixed-case header names. -/
theorem C10_case_sensitive_witness :
    parsePropertiesStep ([], []) ("Last-Modified", "lm") = Except.ok ([], []) ∧
    parsePropertiesStep ([], []) ("ETag", "e") = Except.ok ([], []) :=
  ⟨C10_case_sensitive.1 [] [] "Last-Modified" "lm" (by decide) (by decide),
   C10_case_sensitive.1 [] [] "ETag" "e" (by decide) (by decide)⟩

/-- C5: in both the shares listing and the directories-and-files listing,
the produced `next_marker` is exactly the `NextMarker` text passed through
the `or None` collapse: null when the element is absent or empty, the text
itself when non-empty, and never the empty string. -/
theorem C5_next_marker_invariant :
    (∀ (r : FileResponse) (le : XElem) (lst : SharesList),
       r.body = some le →
       _convert_xml_to_shares (some r) = Except.ok (.parsed lst) →
       lst.next_marker = pyOrNone (le.findtext "NextMarker") ∧
       (le.findtext "NextMarker" = none → lst.next_marker = none) ∧
       (le.findtext "NextMarker" = some "" → lst.next_marker = none) ∧
       (∀ t : String, le.findtext "NextMarker" = some t → t ≠ "" →
          lst.next_marker = some t) ∧
       lst.next_marker ≠ some "") ∧
    (∀ (r : FileResponse) (le : XElem) (res : FileAndDirectoryResults),
       r.body = some le →
       _convert_xml_to_directories_and_files (some r) = Except.ok (.parsed res) →
       res.next_marker = pyOrNone (le.findtext "NextMarker") ∧
       (le.findtext "NextMarker" = none → res.next_marker = none) ∧
       (le.findtext "NextMarker" = some "" → res.next_marker = none) ∧
       (∀ t : String, le.findtext "NextMarker" = some t → t ≠ "" →
          res.next_marker = some t) ∧
       res.next_marker ≠ some "") := by
  constructor
  · intro r le lst hb hok
    have hnm : lst.next_marker = pyOrNone (le.findtext "NextMarker") := by
      simp only [_convert_xml_to_shares, hb] at hok
      cases hfind : le.find "Shares" with
      | none => simp [hfind] at hok
      | some se =>
        simp only [hfind, except_bind_ok] at hok
        cases hloop : parseSharesLoop (se.findall "Share") with
        | error err => simp [hloop] at hok
        | ok items =>
          simp only [hloop, except_bind_ok] at hok
          simp at hok
          rw [← hok]
    refine ⟨hnm, ?_, ?_, ?_, ?_⟩
    · intro h; rw [hnm, h]; rfl
    · intro h; rw [hnm, h]; simp [pyOrNone]
    · intro t ht hne; rw [hnm, ht]; simp [pyOrNone, hne]
    · rw [hnm]; exact pyOrNone_ne_some_empty _
  · intro r le res hb hok
    have hnm : res.next_marker = pyOrNone (le.findtext "NextMarker") := by
      simp only [_convert_xml_to_directories_and_files, hb] at hok
      cases hfind : le.find "Entries" with
      | none => simp [hfind] at hok
      | some ee =>
        simp only [hfind, except_bind_ok] at hok
        cases hfl : parseFilesLoop (ee.findall "File") with
        | error err => simp [hfl] at hok
        | ok files =>
          simp only [hfl, except_bind_ok] at hok
          cases hdl : parseDirectoriesLoop (ee.findall "Directory") with
          | error err => simp [hdl] at hok
          | ok directories =>
            simp only [hdl, except_bind_ok] at hok
            simp at hok
            rw [← hok]
    refine ⟨hnm, ?_, ?_, ?_, ?_⟩
    · intro h; rw [hnm, h]; rfl
    · intro h; rw [hnm, h]; simp [pyOrNone]
    · intro t ht hne; rw [hnm, ht]; simp [pyOrNone, hne]
    · rw [hnm]; exact pyOrNone_ne_some_empty _

/-- Witness for C5: the empty `NextMarker` of `sharesDocEmptyNM` and of
`fdfDoc` yields a null marker; the `abc` marker of `sharesDocMarkerAbc` is
kept. -/
theorem C5_next_marker_invariant_witness :
    sharesListEmptyNM.next_marker = none ∧
    sharesListMarkerAbc.next_marker = some "abc" ∧
    fdfResults.next_marker = none :=
  ⟨(C5_next_marker_invariant.1 { body := some sharesDocEmptyNM } sharesDocEmptyNM
      sharesListEmptyNM rfl rfl).2.2.1 rfl,
   (C5_next_marker_invariant.1 { body := some sharesDocMarkerAbc } sharesDocMarkerAbc
      sharesListMarkerAbc rfl rfl).2.2.2.1 "abc" rfl (by decide),
   (C5_next_marker_invariant.2 { body := some fdfDoc } fdfDoc
      fdfResults rfl rfl).2.2.1 rfl⟩

/-- C6 as stated is false: a shares listing whose `Share` element has no
`Name` child parses without any error, silently producing a `Share` whose
`name` is null (likewise `Etag` would default to null), because both are
read through the tolerant `findtext` rather than required attribute
access. -/
theorem C6_counterexample :
    _convert_xml_to_shares (some { body := some sharesDocNoName }) =
      Except.ok (.parsed
        { next_marker := none,
          items := [ { name := none,
                       metadata := none,
                       properties := { last_modified := some "Tue, 28 Jan 2014 22:49:18 GMT",
                                       etag := some "0x8CB",
                                       quota := some 7 } } ] }) := rfl

/-- C6 amended: only the `Properties` block itself, `Last-Modified` and
`Quota` are required — when one of them is absent the share parse fails at
the point of access (`AttributeError` for the missing block, `TypeError`
from feeding the null lookup result to the timestamp or integer
conversion) — while a missing `Name` or `Etag` is read through the tolerant
`findtext` and silently leaves the corresponding field null. -/
theorem C6_missing_elements (se : XElem) :
    (se.find "Properties" = none →
       parseShareElement se = Except.error PyErr.attributeError) ∧
    (∀ p : XElem, se.find "Properties" = some p →
       p.findtext "Last-Modified" = none →
       parseShareElement se = Except.error PyErr.typeError) ∧
    (∀ (p : XElem) (lm : String), se.find "Properties" = some p →
       p.findtext "Last-Modified" = some lm →
       p.findtext "Quota" = none →
       parseShareElement se = Except.error PyErr.typeError) ∧
    (∀ (p : XElem) (lm : String) (q : Int), se.find "Properties" = some p →
       se.findtext "Name" = none →
       se.find "Metadata" = none →
       p.findtext "Last-Modified" = some lm →
       p.findtext "Etag" = none →
       pyInt (p.findtext "Quota") = Except.ok q →
       parseShareElement se = Except.ok
         { name := none, metadata := none,
           properties := { last_modified := some lm, etag := none,
                           quota := some q } }) := by
  refine ⟨?_, ?_, ?_, ?_⟩
  · intro hp
    simp [parseShareElement, hp]
  · intro p hp hlm
    simp [parseShareElement, hp, hlm, dateutil_parse]
  · intro p lm hp hlm hq
    simp [parseShareElement, hp, hlm, hq, dateutil_parse, pyInt]
  · intro p lm q hp hn hm hlm he hq
    simp [parseShareElement, hp, hn, hm, hlm, he, hq, dateutil_parse]

/-- Witness for the amended C6, one concrete share element per conjunct. -/
theorem C6_missing_elements_witness :
    parseShareElement (.mk "Share" none []) = Except.error PyErr.attributeError ∧
    parseShareElement (.mk "Share" none [ .mk "Properties" none [] ]) =
      Except.error PyErr.typeError ∧
    parseShareElement (.mk "Share" none
        [ .mk "Properties" none [ .mk "Last-Modified" (some "lm") [] ] ]) =
      Except.error PyErr.typeError ∧
    parseShareElement (.mk "Share" none
        [ .mk "Properties" none [ .mk "Last-Modified" (some "lm") [],
                                  .mk "Quota" (some "7") [] ] ]) =
      Except.ok { name := none,
                  metadata := none,
                  properties := { last_modified := some "lm",
                                  etag := none,
                                  quota := some 7 } } :=
  ⟨(C6_missing_elements (.mk "Share" none [])).1 rfl,
   (C6_missing_elements (.mk "Share" none [ .mk "Properties" none [] ])).2.1
     (.mk "Properties" none []) rfl rfl,
   (C6_missing_elements (.mk "Share" none
       [ .mk "Properties" none [ .mk "Last-Modified" (some "lm") [] ] ])).2.2.1
     (.mk "Properties" none [ .mk "Last-Modified" (some "lm") [] ]) "lm" rfl rfl rfl,
   (C6_missing_elements (.mk "Share" none
       [ .mk "Properties" none [ .mk "Last-Modified" (some "lm") [],
                                 .mk "Quota" (some "7") [] ] ])).2.2.2
     (.mk "Properties" none [ .mk "Last-Modified" (some "lm") [],
                              .mk "Quota" (some "7") [] ]) "lm" 7
     rfl rfl rfl rfl rfl rfl⟩

/-- C7: a `SignedIdentifier` whose `AccessPolicy` lacks a `Permission`
child parses without error into an `AccessPolicy` with a null permission,
and `Start`/`Expiry` are parsed as timestamps exactly when their elements
are present and left unset when absent. -/
theorem C7_tolerant_permission :
    (∀ e i ape : XElem, e.find "Id" = some i → e.find "AccessPolicy" = some ape →
       ape.find "Start" = none → ape.find "Expiry" = none →
       ape.find "Permission" = none →
       parseSignedIdentifier e =
         Except.ok (i.text, { start := none, expiry := none, permission := none })) ∧
    (∀ (e i ape st ex : XElem) (ts te : String),
       e.find "Id" = some i → e.find "AccessPolicy" = some ape →
       ape.find "Start" = some st → st.text = some ts →
       ape.find "Expiry" = some ex → ex.text = some te →
       ape.find "Permission" = none →
       parseSignedIdentifier e =
         Except.ok (i.text, { start := some ts, expiry := some te, permission := none })) ∧
    _convert_xml_to_signed_identifiers sigIdsDoc =
      Except.ok [ (some "id1", { start := none, expiry := none, permission := none }) ] := by
  refine ⟨?_, ?_, rfl⟩
  · intro e i ape hi hap hst hex hperm
    simp [parseSignedIdentifier, hi, hap, hst, hex, XElem.findtext, hperm]
  · intro e i ape st ex ts te hi hap hst hts hex hte hperm
    simp [parseSignedIdentifier, hi, hap, hst, hts, hex, hte, XElem.findtext, hperm,
      dateutil_parse]

/-- Witness for C7 at two concrete signed identifiers. -/
theorem C7_tolerant_permission_witness :
    parseSignedIdentifier (.mk "SignedIdentifier" none
        [ .mk "Id" (some "id1") [], .mk "AccessPolicy" none [] ]) =
      Except.ok (some "id1", { start := none, expiry := none, permission := none }) ∧
    parseSignedIdentifier sigIdElemStartExpiry =
      Except.ok (some "id2",
        { start := some "2014-01-01", expiry := some "2015-01-01", permission := none }) :=
  ⟨C7_tolerant_permission.1 (.mk "SignedIdentifier" none
      [ .mk "Id" (some "id1") [], .mk "AccessPolicy" none [] ])
      (.mk "Id" (some "id1") []) (.mk "AccessPolicy" none []) rfl rfl rfl rfl rfl,
   C7_tolerant_permission.2.1 sigIdElemStartExpiry
      (.mk "Id" (some "id2") [])
      (.mk "AccessPolicy" none
        [ .mk "Start" (some "2014-01-01") [], .mk "Expiry" (some "2015-01-01") [] ])
      (.mk "Start" (some "2014-01-01") []) (.mk "Expiry" (some "2015-01-01") [])
      "2014-01-01" "2015-01-01" rfl rfl rfl rfl rfl rfl rfl⟩

/-- A successfully parsed `File` carries the `Name` text of its element. -/
theorem parseFileElement_name (e : XElem) (f : File) :
    parseFileElement e = Except.ok f → f.name = e.findtext "Name" := by
  intro h
  cases hp : e.find "Properties" with
  | none => simp [parseFileElement, hp] at h
  | some p =>
    cases hq : pyInt (p.findtext "Content-Length") with
    | error err => simp [parseFileElement, hp, hq] at h
    | ok n =>
      simp [parseFileElement, hp, hq] at h
      rw [← h]

/-- A successful `File` loop yields files named, in order, by the `Name`
texts of its elements. -/
theorem parseFilesLoop_names : ∀ (l : List XElem) (fs : List File),
    parseFilesLoop l = Except.ok fs →
    fs.map File.name = l.map (fun e => e.findtext "Name") := by
  intro l
  induction l with
  | nil =>
    intro fs h
    simp [parseFilesLoop] at h
    subst h
    rfl
  | cons e rest ih =>
    intro fs h
    cases he : parseFileElement e with
    | error err => simp [parseFilesLoop, he] at h
    | ok f =>
      cases hr : parseFilesLoop rest with
      | error err => simp [parseFilesLoop, he, hr] at h
      | ok tail =>
        simp [parseFilesLoop, he, hr] at h
        subst h
        simp [parseFileElement_name e f he, ih tail hr]

/-- A successful `Directory` loop yields directories named, in order, by the
`Name` texts of its elements. -/
theorem parseDirectoriesLoop_names : ∀ (l : List XElem) (ds : List Directory),
    parseDirectoriesLoop l = Except.ok ds →
    ds.map Directory.name = l.map (fun e => e.findtext "Name") := by
  intro l
  induction l with
  | nil =>
    intro ds h
    simp [parseDirectoriesLoop] at h
    subst h
    rfl
  | cons e rest ih =>
    intro ds h
    cases hr : parseDirectoriesLoop rest with
    | error err => simp [parseDirectoriesLoop, parseDirectoryElement, hr] at h
    | ok tail =>
      simp [parseDirectoriesLoop, parseDirectoryElement, hr] at h
      subst h
      simp [ih tail hr]

/-- C8: files and directories are accumulated into two separate sequences,
each listing the same-kind siblings in document order; in particular the
body `File f1, Directory d1, File f2` yields two files and one directory. -/
theorem C8_separate_ordered_sequences :
    (∀ (r : FileResponse) (le ee : XElem) (res : FileAndDirectoryResults),
       r.body = some le → le.find "Entries" = some ee →
       _convert_xml_to_directories_and_files (some r) = Except.ok (.parsed res) →
       res.files.map File.name = (ee.findall "File").map (fun e => e.findtext "Name") ∧
       res.directories.map Directory.name =
         (ee.findall "Directory").map (fun e => e.findtext "Name") ∧
       res.files.length = (ee.findall "File").length ∧
       res.directories.length = (ee.findall "Directory").length) ∧
    _convert_xml_to_directories_and_files (some { body := some fdfDoc }) =
      Except.ok (.parsed fdfResults) := by
  constructor
  · intro r le ee res hb hee hok
    simp only [_convert_xml_to_directories_and_files, hb, hee, except_bind_ok] at hok
    cases hfl : parseFilesLoop (ee.findall "File") with
    | error err => simp [hfl] at hok
    | ok files =>
      simp only [hfl, except_bind_ok] at hok
      cases hdl : parseDirectoriesLoop (ee.findall "Directory") with
      | error err => simp [hdl] at hok
      | ok directories =>
        simp only [hdl, except_bind_ok] at hok
        simp at hok
        rw [← hok]
        have h1 := parseFilesLoop_names (ee.findall "File") files hfl
        have h2 := parseDirectoriesLoop_names (ee.findall "Directory") directories hdl
        refine ⟨h1, h2, ?_, ?_⟩
        · calc files.length = (files.map File.name).length := by simp
            _ = (ee.findall "File").length := by rw [h1]; simp
        · calc directories.length = (directories.map Directory.name).length := by simp
            _ = (ee.findall "Directory").length := by rw [h2]; simp
  · rfl

/-- Witness for C8 at `fdfDoc`: names in document order, two files and one
directory. -/
theorem C8_separate_ordered_sequences_witness :
    fdfResults.files.map File.name = [some "f1", some "f2"] ∧
    fdfResults.directories.map Directory.name = [some "d1"] ∧
    fdfResults.files.length = 2 ∧ fdfResults.directories.length = 1 := by
  have h := C8_separate_ordered_sequences.1 { body := some fdfDoc } fdfDoc
    (.mk "Entries" none
      [ .mk "File" none
          [ .mk "Name" (some "f1") [],
            .mk "Properties" none [ .mk "Content-Length" (some "1") [] ] ],
        .mk "Directory" none [ .mk "Name" (some "d1") [] ],
        .mk "File" none
          [ .mk "Name" (some "f2") [],
            .mk "Properties" none [ .mk "Content-Length" (some "2") [] ] ] ])
    fdfResults rfl rfl rfl
  refine ⟨?_, ?_, h.2.2.1, h.2.2.2⟩
  · rw [h.1]; rfl
  · rw [h.2.1]; rfl

/-- C9: for every request and every behaviour of the two collaborators, the
outgoing header builder passes the request through the shared generic
header-update step, appends the `x-ms-date` header carrying the current
time and the fixed `Content-Type` header, invokes the authentication
collaborator's `sign_request` exactly once — on the assembled request
already carrying both appended headers — and returns the signed request's
final header collection. -/
theorem C9_update_storage_file_header (upd sign : HRequest → HRequest)
    (current_time : String) (request : HRequest) :
    (_update_storage_file_header upd sign current_time request).2 =
      [ { headers := (upd request).headers ++
            [("x-ms-date", current_time),
             ("Content-Type", "application/octet-stream Charset=UTF-8")] } ] ∧
    (_update_storage_file_header upd sign current_time request).1 =
      (sign { headers := (upd request).headers ++
          [("x-ms-date", current_time),
           ("Content-Type", "application/octet-stream Charset=UTF-8")] }).headers := by
  constructor <;> simp [_update_storage_file_header]

/-- Witness for C9 with identity collaborators on an empty request. -/
theorem C9_update_storage_file_header_witness :
    (_update_storage_file_header id id "now" { headers := [] }).2 =
      [ { headers := [("x-ms-date", "now"),
                      ("Content-Type", "application/octet-stream Charset=UTF-8")] } ] ∧
    (_update_storage_file_header id id "now" { headers := [] }).1 =
      [("x-ms-date", "now"),
       ("Content-Type", "application/octet-stream Charset=UTF-8")] :=
  ⟨(C9_update_storage_file_header id id "now" { headers := [] }).1,
   (C9_update_storage_file_header id id "now" { headers := [] }).2⟩

/-- C4 as stated is false: a service-properties document whose CORS rule
lacks the `ExposedHeaders` element makes the parser fail with an attribute
access error instead of succeeding with the field left unset. -/
theorem C4_counterexample :
    _convert_xml_to_service_properties spDocNoExposed =
      Except.error PyErr.attributeError := rfl

/-- C4 amended: `ExposedHeaders` and `AllowedHeaders` elements are required
to be present — an absent element fails with an attribute access error at
`rule.find(tag).text` — but their text is optional: a present empty element
leaves the corresponding `CorsRule` field unset. -/
theorem C4_cors_headers (rule : XElem) :
    (∀ (ao am ma eh ah : XElem) (sao sam : String) (n : Int),
       rule.find "AllowedOrigins" = some ao → ao.text = some sao →
       rule.find "AllowedMethods" = some am → am.text = some sam →
       rule.find "MaxAgeInSeconds" = some ma → pyInt ma.text = Except.ok n →
       rule.find "ExposedHeaders" = some eh → eh.text = none →
       rule.find "AllowedHeaders" = some ah → ah.text = none →
       parseCorsRule rule = Except.ok
         { allowed_origins := pySplitComma sao, allowed_methods := pySplitComma sam,
           max_age_in_seconds := n, exposed_headers := none, allowed_headers := none }) ∧
    (∀ (ao am ma : XElem) (sao sam : String) (n : Int),
       rule.find "AllowedOrigins" = some ao → ao.text = some sao →
       rule.find "AllowedMethods" = some am → am.text = some sam →
       rule.find "MaxAgeInSeconds" = some ma → pyInt ma.text = Except.ok n →
       rule.find "ExposedHeaders" = none →
       parseCorsRule rule = Except.error PyErr.attributeError) ∧
    (∀ (ao am ma eh : XElem) (sao sam seh : String) (n : Int),
       rule.find "AllowedOrigins" = some ao → ao.text = some sao →
       rule.find "AllowedMethods" = some am → am.text = some sam →
       rule.find "MaxAgeInSeconds" = some ma → pyInt ma.text = Except.ok n →
       rule.find "ExposedHeaders" = some eh → eh.text = some seh →
       rule.find "AllowedHeaders" = none →
       parseCorsRule rule = Except.error PyErr.attributeError) := by
  refine ⟨?_, ?_, ?_⟩
  · intro ao am ma eh ah sao sam n hao hsao ham hsam hma hn heh hteh hah htah
    simp [parseCorsRule, textOf, hao, hsao, ham, hsam, hma, hn, heh, hteh, hah, htah]
  · intro ao am ma sao sam n hao hsao ham hsam hma hn heh
    simp [parseCorsRule, textOf, hao, hsao, ham, hsam, hma, hn, heh]
  · intro ao am ma eh sao sam seh n hao hsao ham hsam hma hn heh hteh hah
    simp [parseCorsRule, textOf, hao, hsao, ham, hsam, hma, hn, heh, hteh, hah]

/-- Witness for the amended C4: the empty-element rule parses with both
header fields unset — also through the whole service-properties document —
while rules with an absent `ExposedHeaders` or `AllowedHeaders` element
fail. -/
theorem C4_cors_headers_witness :
    parseCorsRule corsRuleEmptyHeaderLists = Except.ok
      { allowed_origins := ["a", "b"], allowed_methods := ["GET", "PUT"],
        max_age_in_seconds := 500, exposed_headers := none, allowed_headers := none } ∧
    parseCorsRule corsRuleNoExposed = Except.error PyErr.attributeError ∧
    parseCorsRule corsRuleNoAllowedHeaders = Except.error PyErr.attributeError ∧
    _convert_xml_to_service_properties spDocEmptyHeaderLists = Except.ok
      { cors := some [ { allowed_origins := ["a", "b"],
                         allowed_methods := ["GET", "PUT"],
                         max_age_in_seconds := 500 } ] } := by
  refine ⟨?_, ?_, ?_, rfl⟩
  · have h := (C4_cors_headers corsRuleEmptyHeaderLists).1
      (.mk "AllowedOrigins" (some "a,b") []) (.mk "AllowedMethods" (some "GET,PUT") [])
      (.mk "MaxAgeInSeconds" (some "500") []) (.mk "ExposedHeaders" none [])
      (.mk "AllowedHeaders" none []) "a,b" "GET,PUT" 500
      rfl rfl rfl rfl rfl rfl rfl rfl rfl rfl
    rw [h]
    rfl
  · exact (C4_cors_headers corsRuleNoExposed).2.1
      (.mk "AllowedOrigins" (some "a,b") []) (.mk "AllowedMethods" (some "GET,PUT") [])
      (.mk "MaxAgeInSeconds" (some "500") []) "a,b" "GET,PUT" 500
      rfl rfl rfl rfl rfl rfl rfl
  · exact (C4_cors_headers corsRuleNoAllowedHeaders).2.2
      (.mk "AllowedOrigins" (some "a,b") []) (.mk "AllowedMethods" (some "GET,PUT") [])
      (.mk "MaxAgeInSeconds" (some "500") []) (.mk "ExposedHeaders" (some "x,y") [])
      "a,b" "GET,PUT" "x,y" 500
      rfl rfl rfl rfl rfl rfl rfl rfl rfl

end AzureStorage
